import Mathlib

/-!
Shallow embedding of the signing/verification core of fast-jwt
(src/crypto.js): `createSignature` and `verifySignature` dispatching on the
algorithm identifier, the two key validators, and the URL-safe base64
transport encoding, together with the platform semantics the file relies on
(Node's lenient base64 decoder and `timingSafeEqual`).

The cryptographic primitives imported from node `crypto` and from
`ecdsa-sig-formatter` (HMAC, RSA/ECDSA sign and verify, EdDSA one-shot sign
and verify, DER/JOSE conversion) are opaque to the source file; they are
modelled as parameters collected in a `Prims` structure, at byte level:
the source converts between raw bytes and base64 strings around each call,
and the embedding performs the same conversions explicitly.
-/

namespace FastJwt

/-- JavaScript values as far as crypto.js inspects them: buffers, strings,
numbers, booleans, null, undefined, and plain objects with the two
properties the code reads (`key`, `passphrase`). An absent property is
modelled as `undefined`, which is how every read performed by the code
observes it. -/
inductive JSVal where
  | buffer (bytes : List Nat)
  | str (s : String)
  | num (n : Int)
  | boolean (b : Bool)
  | null
  | undefined
  | obj (key : JSVal) (passphrase : JSVal)
deriving DecidableEq, Repr

/-- JavaScript `typeof`. -/
def typeofVal : JSVal → String
  | .buffer _ => "object"
  | .str _ => "string"
  | .num _ => "number"
  | .boolean _ => "boolean"
  | .null => "object"
  | .undefined => "undefined"
  | .obj _ _ => "object"

/-- JavaScript truthiness of a `JSVal` (objects and buffers are always
truthy; the empty string, zero, `null`, `undefined` and `false` are
falsy). -/
def truthy : JSVal → Bool
  | .buffer _ => true
  | .str s => !(s == "")
  | .num n => !(n == 0)
  | .boolean b => b
  | .null => false
  | .undefined => false
  | .obj _ _ => true

/-- `key instanceof Buffer || typeof key === 'string'`, the shape test the
source applies to secrets, public keys, bare private keys, and the
`key`/`passphrase` properties of a structured private key. -/
def strOrBuf : JSVal → Bool
  | .buffer _ => true
  | .str _ => true
  | _ => false

/-- The TokenError codes used by crypto.js (`TokenError.codes.*`). -/
inductive ErrCode where
  | invalidKey
  | signError
  | verifyError
deriving DecidableEq, Repr

/-- A thrown JavaScript exception: a native (non-TokenError) error, a
TokenError, or a TokenError carrying an `originalError`. -/
inductive Thrown where
  | native (message : String)
  | token (code : ErrCode) (message : String)
  | tokenWrap (code : ErrCode) (message : String) (original : Thrown)
deriving DecidableEq, Repr

/-- The code of the outermost error of a thrown value. -/
def Thrown.topCode : Thrown → Option ErrCode
  | .native _ => none
  | .token c _ => some c
  | .tokenWrap c _ _ => some c

/-! ## Base64 and the URL-safe transport encoding -/

/-- Character of the standard base64 alphabet for a sextet value. -/
def sextet (v : Nat) : Char :=
  if v < 26 then Char.ofNat (65 + v)
  else if v < 52 then Char.ofNat (97 + (v - 26))
  else if v < 62 then Char.ofNat (48 + (v - 52))
  else if v = 62 then '+'
  else '/'

/-- Byte list to base64 sextet values (no padding), three bytes at a
time. -/
def b64EncodeSextets : List Nat → List Nat
  | a :: b :: c :: rest =>
    a / 4 :: (a % 4 * 16 + b / 16) :: (b % 16 * 4 + c / 64) :: c % 64 ::
      b64EncodeSextets rest
  | [a, b] => [a / 4, a % 4 * 16 + b / 16, b % 16 * 4]
  | [a] => [a / 4, a % 4 * 16]
  | [] => []

/-- The `=` padding characters standard base64 appends. -/
def base64Pad (len : Nat) : List Char :=
  match len % 3 with
  | 1 => ['=', '=']
  | 2 => ['=']
  | _ => []

/-- Standard base64 encoding of a byte list, as produced by
`digest('base64')`, `toString('base64')` and `sign(..., 'base64')`. -/
def base64Encode (bs : List Nat) : String :=
  String.mk ((b64EncodeSextets bs).map sextet ++ base64Pad bs.length)

/-- The source's `encoderMap` applied by
`replace(base64UrlMatcher, base64UrlReplacer)`: `=` is removed, `+`
becomes `-`, `/` becomes `_`, every other character is kept. -/
def base64UrlReplacer : Char → Option Char
  | '=' => none
  | '+' => some '-'
  | '/' => some '_'
  | c => some c

/-- `s.replace(base64UrlMatcher, base64UrlReplacer)`: the regex `[=+/]`
replaces exactly those three characters via `encoderMap`. -/
def replaceB64Url (s : String) : String :=
  String.mk (s.toList.filterMap base64UrlReplacer)

/-- Wire form of a raw signature: standard base64 then the URL-safe
replacement, as every return path of `createSignature` performs. -/
def toUrlSafe (bs : List Nat) : String :=
  replaceB64Url (base64Encode bs)

/-- Node's base64 character table used when decoding: both the standard
and the URL-safe alphabet are accepted; every other character is
ignored. -/
def unb64url (c : Char) : Option Nat :=
  if 'A' ≤ c ∧ c ≤ 'Z' then some (c.toNat - 65)
  else if 'a' ≤ c ∧ c ≤ 'z' then some (c.toNat - 97 + 26)
  else if '0' ≤ c ∧ c ≤ '9' then some (c.toNat - 48 + 52)
  else if c = '+' ∨ c = '-' then some 62
  else if c = '/' ∨ c = '_' then some 63
  else none

/-- Sextet values back to bytes, four sextets at a time; a trailing group
of three or two sextets yields two or one bytes, a single leftover sextet
is dropped, matching Node's decoder. -/
def b64DecodeSextets : List Nat → List Nat
  | a :: b :: c :: d :: rest =>
    (a * 4 + b / 16) :: (b % 16 * 16 + c / 4) :: (c % 4 * 64 + d) ::
      b64DecodeSextets rest
  | [a, b, c] => [a * 4 + b / 16, b % 16 * 16 + c / 4]
  | [a, b] => [a * 4 + b / 16]
  | _ => []

/-- `Buffer.from(s, 'base64')`: Node's lenient base64 decoding. It never
throws: characters outside the (standard or URL-safe) alphabet, including
`=`, are skipped, and the surviving sextets are decoded. -/
def nodeB64Decode (s : String) : List Nat :=
  b64DecodeSextets (s.toList.filterMap unb64url)

/-! ## Key validation (crypto.js lines 30-67) -/

/-- `The secret for algorithm ... must be a string or a buffer.` -/
def secretMsg (algorithm : String) : String :=
  "The secret for algorithm " ++ algorithm ++ " must be a string or a buffer."

/-- Message of the public-key validation in `verifySignature`. -/
def pubKeyMsg (algorithm : String) : String :=
  "The key for algorithm " ++ algorithm ++
    " must be a string, a object or a buffer containing the public key."

/-- Message thrown when a private key is neither string, buffer nor
object. -/
def privKeyTypeMsg (algorithm : String) : String :=
  "The key for algorithm " ++ algorithm ++
    " must be a string, a object or a buffer containing the private key."

/-- Message thrown when a structured private key has a bad `key`
property. -/
def privKeyKeyPropMsg (algorithm : String) : String :=
  "The key object for algorithm " ++ algorithm ++
    " must have the key property as string or buffer containing the private key."

/-- Message thrown when a structured private key has a bad `passphrase`
property. -/
def privKeyPassphraseMsg (algorithm : String) : String :=
  "The key object for algorithm " ++ algorithm ++
    " must have the passphrase property as string or buffer containing the private key."

/-- `validateSecretOrPublicKey(algorithm, key, message)`. -/
def validateSecretOrPublicKey (algorithm : String) (key : JSVal) (message : String) :
    Except Thrown Unit :=
  if strOrBuf key then .ok ()
  else .error (.token .invalidKey message)

/-- Normalized private key: the object the source's `validatePrivateKey`
returns, restricted to the two properties later spread into the signing
options. -/
structure PrivNorm where
  key : JSVal
  passphrase : JSVal
deriving DecidableEq, Repr

/-- JavaScript property read `v.key` / `v.passphrase`: throws on `null`
and `undefined`, yields `undefined` on primitives small and buffers,
reads the property of an object. -/
def getProp (v : JSVal) (passField : Bool) : Except Thrown JSVal :=
  match v with
  | .null => .error (.native "TypeError: Cannot read properties of null")
  | .undefined => .error (.native "TypeError: Cannot read properties of undefined")
  | .obj k p => .ok (if passField then p else k)
  | _ => .ok .undefined

/-- `validatePrivateKey(algorithm, key)` (crypto.js lines 38-67). -/
def validatePrivateKey (algorithm : String) (key : JSVal) : Except Thrown PrivNorm :=
  if strOrBuf key then .ok ⟨key, .undefined⟩
  else if !(typeofVal key == "object") then
    .error (.token .invalidKey (privKeyTypeMsg algorithm))
  else
    match getProp key false with
    | .error e => .error e
    | .ok kf =>
      if !(strOrBuf kf) then
        .error (.token .invalidKey (privKeyKeyPropMsg algorithm))
      else
        match getProp key true with
        | .error e => .error e
        | .ok pf =>
          if truthy pf && !(strOrBuf pf) then
            .error (.token .invalidKey (privKeyPassphraseMsg algorithm))
          else .ok ⟨kf, pf⟩

/-! ## Primitives and options -/

/-- Node RSA padding constants, as symbols. -/
inductive Padding where
  | pkcs1
  | pss
deriving DecidableEq, Repr

/-- Node PSS salt length constants, as symbols: `RSA_PSS_SALTLEN_DIGEST`,
`RSA_PSS_SALTLEN_MAX_SIGN`, `RSA_PSS_SALTLEN_AUTO`. -/
inductive SaltLen where
  | digest
  | maxSign
  | auto
deriving DecidableEq, Repr

/-- The options object handed to `createSign(...).sign`. -/
structure SignOpts where
  key : JSVal
  passphrase : JSVal
  padding : Padding
  saltLength : SaltLen
deriving DecidableEq, Repr

/-- The options object handed to `createVerify(...).verify`. -/
structure VerifyOpts where
  key : JSVal
  padding : Padding
  saltLength : SaltLen
deriving DecidableEq, Repr

/-- The primitives crypto.js imports, abstract for this development and
working on raw bytes; the base64 conversions the source performs around
them are explicit in the embedding. -/
structure Prims where
  hmac : String → JSVal → String → List Nat
  rsaSign : String → SignOpts → String → List Nat
  rsaVerify : String → VerifyOpts → String → List Nat → Bool
  edSignSupported : Bool
  edVerifySupported : Bool
  edSign : String → JSVal → List Nat
  edVerify : String → JSVal → List Nat → Bool
  derToJose : List Nat → String → Except Thrown (List Nat)
  joseToDer : List Nat → String → Except Thrown (List Nat)

/-- Node's `timingSafeEqual`: throws a RangeError when the byte lengths
differ, otherwise constant-time equality. -/
def timingSafeEqual (a b : List Nat) : Except Thrown Bool :=
  if a.length == b.length then .ok (a == b)
  else .error (.native "RangeError: Input buffers must have the same byte length")

/-! ## createSignature and verifySignature (crypto.js lines 73-175) -/

/-- Body of `createSignature` up to its surrounding try/catch. -/
def createSignatureInner (P : Prims) (algorithm : String) (key : JSVal)
    (input : String) : Except Thrown String :=
  let type := algorithm.take 2
  let alg := "SHA" ++ algorithm.drop 2
  if type == "HS" then
    match validateSecretOrPublicKey algorithm key (secretMsg algorithm) with
    | .error e => .error e
    | .ok _ => .ok (toUrlSafe (P.hmac alg key input))
  else if type == "Ed" then
    if P.edSignSupported then
      match validatePrivateKey algorithm key with
      | .error e => .error e
      | .ok _ => .ok (toUrlSafe (P.edSign input key))
    else
      .error (.token .signError
        "EdDSA algorithms are not supported by your Node.js version.")
  else
    match validatePrivateKey algorithm key with
    | .error e => .error e
    | .ok norm =>
      let options : SignOpts :=
        if type == "PS" then ⟨norm.key, norm.passphrase, .pss, .digest⟩
        else ⟨norm.key, norm.passphrase, .pkcs1, .maxSign⟩
      let signature := P.rsaSign ("RSA-" ++ alg) options input
      if type == "ES" then
        match P.derToJose signature algorithm with
        | .error e => .error e
        | .ok jose => .ok (toUrlSafe jose)
      else .ok (toUrlSafe signature)

/-- `createSignature(algorithm, key, input)`: the body wrapped in the
catch that rethrows every exception as a `signError` TokenError carrying
the original error. -/
def createSignature (P : Prims) (algorithm : String) (key : JSVal)
    (input : String) : Except Thrown String :=
  match createSignatureInner P algorithm key input with
  | .ok s => .ok s
  | .error e => .error (.tokenWrap .signError "Cannot create the signature." e)

/-- Body of `verifySignature` up to its surrounding try/catch. -/
def verifySignatureInner (P : Prims) (algorithm : String) (key : JSVal)
    (input : String) (signatureStr : String) : Except Thrown Bool :=
  let type := algorithm.take 2
  let alg := "SHA" ++ algorithm.drop 2
  let signature := nodeB64Decode signatureStr
  if type == "HS" then
    match validateSecretOrPublicKey algorithm key (secretMsg algorithm) with
    | .error e => .error e
    | .ok _ =>
      match timingSafeEqual (P.hmac alg key input) signature with
      | .ok b => .ok b
      | .error _ => .ok false
  else if type == "Ed" then
    if P.edVerifySupported then .ok (P.edVerify input key signature)
    else
      .error (.token .signError
        "EdDSA algorithms are not supported by your Node.js version.")
  else
    match validateSecretOrPublicKey algorithm key (pubKeyMsg algorithm) with
    | .error e => .error e
    | .ok _ =>
      let options : VerifyOpts :=
        if type == "PS" then ⟨key, .pss, .digest⟩ else ⟨key, .pkcs1, .auto⟩
      if type == "ES" then
        match P.joseToDer signature algorithm with
        | .error e => .error e
        | .ok der => .ok (P.rsaVerify ("RSA-" ++ alg) options input der)
      else .ok (P.rsaVerify ("RSA-" ++ alg) options input signature)

/-- `verifySignature(algorithm, key, input, signature)`: the body wrapped
in the catch that rethrows every exception as a `verifyError` TokenError
carrying the original error. -/
def verifySignature (P : Prims) (algorithm : String) (key : JSVal)
    (input : String) (signatureStr : String) : Except Thrown Bool :=
  match verifySignatureInner P algorithm key input signatureStr with
  | .ok b => .ok b
  | .error e => .error (.tokenWrap .verifyError "Cannot verify the signature." e)

/-! ## Concrete primitive instantiations used for evaluation -/

/-- A small concrete primitive set: deterministic toy byte outputs, each
verifier accepting exactly its signer's output, identity DER/JOSE
conversion. Used to evaluate the embedded code at concrete inputs. -/
def tP : Prims where
  hmac := fun _ _ _ => [1, 2, 3]
  rsaSign := fun _ _ _ => [5, 6]
  rsaVerify := fun _ _ _ sig => sig == [5, 6]
  edSignSupported := true
  edVerifySupported := true
  edSign := fun _ _ => [7]
  edVerify := fun _ _ sig => sig == [7]
  derToJose := fun der _ => .ok der
  joseToDer := fun jose _ => .ok jose

/-- Primitives whose native RSA verifier accepts exactly when it is handed
the automatic salt-length policy: a probe telling which salt policy the
code passes down. -/
def saltProbe : Prims :=
  { tP with rsaVerify := fun _ opts _ _ => opts.saltLength == SaltLen.auto }

/-- Primitives whose native EdDSA verifier accepts exactly when it is
handed the undefined key: a probe showing the key reaches the native call
unvalidated. -/
def edProbe : Prims :=
  { tP with edVerify := fun _ k _ => k == JSVal.undefined }

/-- Primitives on a runtime without EdDSA support. -/
def noEdP : Prims :=
  { tP with edSignSupported := false, edVerifySupported := false }

/-- Primitives whose native verifiers reject every signature. -/
def rejP : Prims :=
  { tP with rsaVerify := fun _ _ _ _ => false, edVerify := fun _ _ _ => false }

/-! ## Lemmas about the transport codec -/

/-- Replacing a sextet character for the URL-safe alphabet and decoding it
with Node's table recovers the sextet value. -/
theorem char_round : ∀ v : Nat, v < 64 →
    (base64UrlReplacer (sextet v)).bind unb64url = some v := by
  decide

/-- Every sextet value produced by the encoder is below 64. -/
theorem b64EncodeSextets_lt : ∀ bs : List Nat, (∀ b ∈ bs, b < 256) →
    ∀ v ∈ b64EncodeSextets bs, v < 64
  | [], _ => by simp [b64EncodeSextets]
  | [a], h => by
    have ha : a < 256 := h a (by simp)
    simp only [b64EncodeSextets, List.mem_cons, List.not_mem_nil, or_false]
    rintro v (rfl | rfl) <;> omega
  | [a, b], h => by
    have ha : a < 256 := h a (by simp)
    have hb : b < 256 := h b (by simp)
    simp only [b64EncodeSextets, List.mem_cons, List.not_mem_nil, or_false]
    rintro v (rfl | rfl | rfl) <;> omega
  | a :: b :: c :: rest, h => by
    have ih := b64EncodeSextets_lt rest (fun x hx => h x (by simp [hx]))
    have ha : a < 256 := h a (by simp)
    have hb : b < 256 := h b (by simp)
    have hc : c < 256 := h c (by simp)
    simp only [b64EncodeSextets, List.mem_cons]
    rintro v (rfl | rfl | rfl | rfl | hv)
    · omega
    · omega
    · omega
    · omega
    · exact ih v hv

/-- Decoding the sextet stream the encoder produced restores the bytes. -/
theorem b64_decode_encode : ∀ bs : List Nat, (∀ b ∈ bs, b < 256) →
    b64DecodeSextets (b64EncodeSextets bs) = bs
  | [], _ => rfl
  | [a], h => by
    have ha : a < 256 := h a (by simp)
    simp only [b64EncodeSextets, b64DecodeSextets, List.cons.injEq, and_true]
    omega
  | [a, b], h => by
    have ha : a < 256 := h a (by simp)
    have hb : b < 256 := h b (by simp)
    simp only [b64EncodeSextets, b64DecodeSextets, List.cons.injEq, and_true]
    constructor <;> omega
  | a :: b :: c :: rest, h => by
    have ih := b64_decode_encode rest (fun x hx => h x (by simp [hx]))
    have ha : a < 256 := h a (by simp)
    have hb : b < 256 := h b (by simp)
    have hc : c < 256 := h c (by simp)
    simp only [b64EncodeSextets, b64DecodeSextets, ih, List.cons.injEq, and_true]
    refine ⟨by omega, by omega, by omega⟩

/-- The padding characters vanish under the URL-safe replacement. -/
theorem filterMap_replacer_pad (n : Nat) :
    (base64Pad n).filterMap base64UrlReplacer = [] := by
  unfold base64Pad
  split <;> rfl

/-- Replacing then Node-decoding a list of in-range sextet characters is
the identity on the sextet values. -/
theorem filterMap_char_round (sv : List Nat) (h : ∀ v ∈ sv, v < 64) :
    (sv.filterMap fun v => (base64UrlReplacer (sextet v)).bind unb64url) = sv := by
  induction sv with
  | nil => rfl
  | cons x xs ih =>
    have hx := char_round x (h x (by simp))
    simp only [List.filterMap_cons, hx]
    rw [ih (fun v hv => h v (by simp [hv]))]

/-- Node's base64 decoding of the URL-safe wire form restores the raw
bytes: the inverse property of the transport codec. -/
theorem nodeB64Decode_toUrlSafe (bs : List Nat) (h : ∀ b ∈ bs, b < 256) :
    nodeB64Decode (toUrlSafe bs) = bs := by
  have hlt := b64EncodeSextets_lt bs h
  unfold nodeB64Decode toUrlSafe replaceB64Url base64Encode
  show b64DecodeSextets
    ((((b64EncodeSextets bs).map sextet ++ base64Pad bs.length).filterMap
      base64UrlReplacer).filterMap unb64url) = bs
  rw [List.filterMap_append, filterMap_replacer_pad, List.append_nil,
    List.filterMap_map, List.filterMap_filterMap]
  simp only [Function.comp]
  rw [filterMap_char_round _ hlt, b64_decode_encode bs h]

/-! ## Branch lemmas for the dispatch of createSignature/verifySignature -/

/-- HS sign branch: base64url of the HMAC digest. -/
theorem hs_sign_eq (P : Prims) (alg : String) (key : JSVal) (msg : String)
    (h : alg.take 2 = "HS") (hk : strOrBuf key = true) :
    createSignature P alg key msg =
      .ok (toUrlSafe (P.hmac ("SHA" ++ alg.drop 2) key msg)) := by
  unfold createSignature createSignatureInner validateSecretOrPublicKey
  simp [h, hk]

/-- HS verify branch: exactly the equality of the recomputed digest with
the leniently decoded signature; the inner catch turns the length-mismatch
exception of timingSafeEqual into the same boolean. -/
theorem hs_verify_eq (P : Prims) (alg : String) (key : JSVal) (msg s : String)
    (h : alg.take 2 = "HS") (hk : strOrBuf key = true) :
    verifySignature P alg key msg s =
      .ok (P.hmac ("SHA" ++ alg.drop 2) key msg == nodeB64Decode s) := by
  unfold verifySignature verifySignatureInner validateSecretOrPublicKey timingSafeEqual
  by_cases hl : (P.hmac ("SHA" ++ alg.drop 2) key msg).length = (nodeB64Decode s).length
  · simp [h, hk, hl]
  · have hne : (P.hmac ("SHA" ++ alg.drop 2) key msg == nodeB64Decode s) = false := by
      rw [beq_eq_false_iff_ne]
      intro he
      exact hl (by rw [he])
    simp [h, hk, hl, hne]

/-- Ed sign branch with runtime support: base64url of the one-shot
signature over the raw input, the key passed through unchanged. -/
theorem ed_sign_eq (P : Prims) (alg : String) (key : JSVal) (msg : String)
    (h : alg.take 2 = "Ed") (hsup : P.edSignSupported = true)
    (hk : strOrBuf key = true) :
    createSignature P alg key msg = .ok (toUrlSafe (P.edSign msg key)) := by
  unfold createSignature createSignatureInner validatePrivateKey
  simp [h, hk, hsup]

/-- Ed sign branch without runtime support: a signError TokenError thrown
before any key validation, wrapped by the boundary catch into another
signError. -/
theorem ed_sign_unsupported (P : Prims) (alg : String) (key : JSVal) (msg : String)
    (h : alg.take 2 = "Ed") (hsup : P.edSignSupported = false) :
    createSignature P alg key msg =
      .error (.tokenWrap .signError "Cannot create the signature."
        (.token .signError
          "EdDSA algorithms are not supported by your Node.js version.")) := by
  unfold createSignature createSignatureInner
  simp [h, hsup]

/-- Ed verify branch with runtime support: no key validation happens; the
native verifier is called on the raw input, the key as given, and the
decoded signature, and its boolean is returned. -/
theorem ed_verify_eq (P : Prims) (alg : String) (key : JSVal) (msg s : String)
    (h : alg.take 2 = "Ed") (hsup : P.edVerifySupported = true) :
    verifySignature P alg key msg s =
      .ok (P.edVerify msg key (nodeB64Decode s)) := by
  unfold verifySignature verifySignatureInner
  simp [h, hsup]

/-- Ed verify branch without runtime support: a signError TokenError,
wrapped by the boundary catch into a verifyError. -/
theorem ed_verify_unsupported (P : Prims) (alg : String) (key : JSVal) (msg s : String)
    (h : alg.take 2 = "Ed") (hsup : P.edVerifySupported = false) :
    verifySignature P alg key msg s =
      .error (.tokenWrap .verifyError "Cannot verify the signature."
        (.token .signError
          "EdDSA algorithms are not supported by your Node.js version.")) := by
  unfold verifySignature verifySignatureInner
  simp [h, hsup]

/-- PS sign branch: PSS padding with digest-length salt. -/
theorem ps_sign_eq (P : Prims) (alg : String) (key : JSVal) (msg : String)
    (h : alg.take 2 = "PS") (hk : strOrBuf key = true) :
    createSignature P alg key msg =
      .ok (toUrlSafe (P.rsaSign ("RSA-" ++ ("SHA" ++ alg.drop 2))
        ⟨key, .undefined, .pss, .digest⟩ msg)) := by
  unfold createSignature createSignatureInner validatePrivateKey
  simp [h, hk]

/-- Fallthrough sign branch (every identifier whose first two characters
are none of HS, Ed, PS, ES): PKCS#1 v1.5 padding, max salt field unused,
hash name SHA plus the identifier remainder. -/
theorem rs_sign_eq (P : Prims) (alg : String) (key : JSVal) (msg : String)
    (h1 : alg.take 2 ≠ "HS") (h2 : alg.take 2 ≠ "Ed")
    (h3 : alg.take 2 ≠ "PS") (h4 : alg.take 2 ≠ "ES")
    (hk : strOrBuf key = true) :
    createSignature P alg key msg =
      .ok (toUrlSafe (P.rsaSign ("RSA-" ++ ("SHA" ++ alg.drop 2))
        ⟨key, .undefined, .pkcs1, .maxSign⟩ msg)) := by
  unfold createSignature createSignatureInner validatePrivateKey
  simp [beq_iff_eq, h1, h2, h3, h4, hk]

/-- ES sign branch: the DER signature is converted by derToJose before the
wire encoding. -/
theorem es_sign_eq (P : Prims) (alg : String) (key : JSVal) (msg : String)
    (j : List Nat) (h : alg.take 2 = "ES") (hk : strOrBuf key = true)
    (hder : P.derToJose (P.rsaSign ("RSA-" ++ ("SHA" ++ alg.drop 2))
      ⟨key, .undefined, .pkcs1, .maxSign⟩ msg) alg = .ok j) :
    createSignature P alg key msg = .ok (toUrlSafe j) := by
  unfold createSignature createSignatureInner validatePrivateKey
  simp [h, hk, hder]

/-- PS verify branch: the options handed to the native verifier carry PSS
padding and the digest-length salt policy (not automatic detection). -/
theorem ps_verify_eq (P : Prims) (alg : String) (key : JSVal) (msg s : String)
    (h : alg.take 2 = "PS") (hk : strOrBuf key = true) :
    verifySignature P alg key msg s =
      .ok (P.rsaVerify ("RSA-" ++ ("SHA" ++ alg.drop 2))
        ⟨key, .pss, .digest⟩ msg (nodeB64Decode s)) := by
  unfold verifySignature verifySignatureInner validateSecretOrPublicKey
  simp [h, hk]

/-- Fallthrough verify branch: PKCS#1 v1.5 padding with the automatic salt
field, on the decoded signature bytes. -/
theorem rs_verify_eq (P : Prims) (alg : String) (key : JSVal) (msg s : String)
    (h1 : alg.take 2 ≠ "HS") (h2 : alg.take 2 ≠ "Ed")
    (h3 : alg.take 2 ≠ "PS") (h4 : alg.take 2 ≠ "ES")
    (hk : strOrBuf key = true) :
    verifySignature P alg key msg s =
      .ok (P.rsaVerify ("RSA-" ++ ("SHA" ++ alg.drop 2))
        ⟨key, .pkcs1, .auto⟩ msg (nodeB64Decode s)) := by
  unfold verifySignature verifySignatureInner validateSecretOrPublicKey
  simp [beq_iff_eq, h1, h2, h3, h4, hk]

/-- ES verify branch: the decoded signature is converted by joseToDer and
the result verified with PKCS#1 options carrying the automatic salt
field. -/
theorem es_verify_eq (P : Prims) (alg : String) (key : JSVal) (msg s : String)
    (d : List Nat) (h : alg.take 2 = "ES") (hk : strOrBuf key = true)
    (hjose : P.joseToDer (nodeB64Decode s) alg = .ok d) :
    verifySignature P alg key msg s =
      .ok (P.rsaVerify ("RSA-" ++ ("SHA" ++ alg.drop 2))
        ⟨key, .pkcs1, .auto⟩ msg d) := by
  unfold verifySignature verifySignatureInner validateSecretOrPublicKey
  simp [h, hk, hjose]

/-- A structured private key whose key property is neither string nor
buffer is rejected by validatePrivateKey with the field-naming
InvalidKey. -/
theorem validatePrivateKey_badKeyProp (alg : String) (kf pf : JSVal)
    (hbad : strOrBuf kf = false) :
    validatePrivateKey alg (.obj kf pf) =
      .error (.token .invalidKey (privKeyKeyPropMsg alg)) := by
  have hobj : strOrBuf (.obj kf pf) = false := rfl
  unfold validatePrivateKey getProp
  simp [hobj, hbad, typeofVal]

/-! ## Claims -/

/-- C8: The URL-safe transport encoding is standard base64 with the
padding removed and plus and slash replaced, it has no error conditions
(toUrlSafe is total), and decoding inverts it exactly on every byte
sequence. -/
theorem c8_urlsafe_roundtrip (bs : List Nat) (h : ∀ b ∈ bs, b < 256) :
    nodeB64Decode (toUrlSafe bs) = bs :=
  nodeB64Decode_toUrlSafe bs h

/-- Witness for C8 at lengths producing two, one and zero padding
characters. -/
theorem c8_urlsafe_roundtrip_witness :
    nodeB64Decode (toUrlSafe [255]) = [255] ∧
    nodeB64Decode (toUrlSafe [0, 251]) = [0, 251] ∧
    nodeB64Decode (toUrlSafe [10, 20, 30]) = [10, 20, 30] :=
  ⟨c8_urlsafe_roundtrip [255] (by decide),
   c8_urlsafe_roundtrip [0, 251] (by decide),
   c8_urlsafe_roundtrip [10, 20, 30] (by decide)⟩

/-- C9: Every algorithm identifier whose first two characters are not HS,
Ed, PS or ES falls through, in both createSignature and verifySignature,
to the RSA PKCS#1 v1.5 path with hash name SHA followed by the remaining
characters; no rejection of unknown identifiers happens in this core. -/
theorem c9_unknown_alg_fallthrough (P : Prims) (alg : String) (key : JSVal)
    (msg s : String)
    (h1 : alg.take 2 ≠ "HS") (h2 : alg.take 2 ≠ "Ed")
    (h3 : alg.take 2 ≠ "PS") (h4 : alg.take 2 ≠ "ES")
    (hk : strOrBuf key = true) :
    createSignature P alg key msg =
      .ok (toUrlSafe (P.rsaSign ("RSA-" ++ ("SHA" ++ alg.drop 2))
        ⟨key, .undefined, .pkcs1, .maxSign⟩ msg)) ∧
    verifySignature P alg key msg s =
      .ok (P.rsaVerify ("RSA-" ++ ("SHA" ++ alg.drop 2))
        ⟨key, .pkcs1, .auto⟩ msg (nodeB64Decode s)) :=
  ⟨rs_sign_eq P alg key msg h1 h2 h3 h4 hk,
   rs_verify_eq P alg key msg s h1 h2 h3 h4 hk⟩

/-- Witness for C9 at the unknown identifier XX999. -/
theorem c9_unknown_alg_fallthrough_witness :
    createSignature tP "XX999" (.str "k") "m" =
      .ok (toUrlSafe (tP.rsaSign ("RSA-" ++ ("SHA" ++ "XX999".drop 2))
        ⟨.str "k", .undefined, .pkcs1, .maxSign⟩ "m")) ∧
    verifySignature tP "XX999" (.str "k") "m" "AA" =
      .ok (tP.rsaVerify ("RSA-" ++ ("SHA" ++ "XX999".drop 2))
        ⟨.str "k", .pkcs1, .auto⟩ "m" (nodeB64Decode "AA")) :=
  c9_unknown_alg_fallthrough tP "XX999" (.str "k") "m" "AA"
    (by decide) (by decide) (by decide) (by decide) rfl

/-- C10: A structured private key whose passphrase property is falsy (for
example the empty string or zero) skips the passphrase type check and is
accepted; only a truthy passphrase has to be a string or buffer. -/
theorem c10_falsy_passphrase (alg : String) (kf pf : JSVal)
    (hkf : strOrBuf kf = true) :
    (truthy pf = false → validatePrivateKey alg (.obj kf pf) = .ok ⟨kf, pf⟩) ∧
    (truthy pf = true → strOrBuf pf = false →
      validatePrivateKey alg (.obj kf pf) =
        .error (.token .invalidKey (privKeyPassphraseMsg alg))) := by
  have hobj : strOrBuf (.obj kf pf) = false := rfl
  constructor
  · intro hf
    unfold validatePrivateKey getProp
    simp [hobj, hkf, hf, typeofVal]
  · intro ht hb
    unfold validatePrivateKey getProp
    simp [hobj, hkf, ht, hb, typeofVal]

/-- Witness for C10: empty-string and zero passphrases accepted, a numeric
truthy passphrase rejected with the field-naming message. -/
theorem c10_falsy_passphrase_witness :
    validatePrivateKey "RS256" (.obj (.str "pem") (.str "")) =
      .ok ⟨.str "pem", .str ""⟩ ∧
    validatePrivateKey "RS256" (.obj (.str "pem") (.num 0)) =
      .ok ⟨.str "pem", .num 0⟩ ∧
    validatePrivateKey "RS256" (.obj (.str "pem") (.num 1)) =
      .error (.token .invalidKey (privKeyPassphraseMsg "RS256")) :=
  ⟨(c10_falsy_passphrase "RS256" (.str "pem") (.str "") rfl).1 rfl,
   (c10_falsy_passphrase "RS256" (.str "pem") (.num 0) rfl).1 rfl,
   (c10_falsy_passphrase "RS256" (.str "pem") (.num 1) rfl).2 rfl rfl⟩

/-- C3 counterexample: the claim says PS verification hands the native
verifier the automatic salt-length policy. With a native verifier that
accepts exactly when given the automatic policy, verification of PS256
returns false: the code passes the digest-length policy instead (and a
digest-policy verifier accepts). -/
theorem c3_pss_salt_cex :
    verifySignature saltProbe "PS256" (.str "pub") "msg" "AA" = .ok false ∧
    verifySignature
      { tP with rsaVerify := fun _ opts _ _ => opts.saltLength == SaltLen.digest }
      "PS256" (.str "pub") "msg" "AA" = .ok true :=
  ⟨rfl, rfl⟩

/-- C3 amended: every PS-family verification invokes the native verifier
with PSS padding and the digest-length salt policy, the same policy the
signer uses, rather than automatic salt-length detection. -/
theorem c3_pss_verify_digest_salt (P : Prims) (alg : String) (key : JSVal)
    (msg s : String) (h : alg.take 2 = "PS") (hk : strOrBuf key = true) :
    verifySignature P alg key msg s =
      .ok (P.rsaVerify ("RSA-" ++ ("SHA" ++ alg.drop 2))
        ⟨key, .pss, .digest⟩ msg (nodeB64Decode s)) :=
  ps_verify_eq P alg key msg s h hk

/-- Witness for the amended C3 at PS384. -/
theorem c3_pss_verify_digest_salt_witness :
    verifySignature tP "PS384" (.str "pub") "msg" "BQY" =
      .ok (tP.rsaVerify ("RSA-" ++ ("SHA" ++ "PS384".drop 2))
        ⟨.str "pub", .pss, .digest⟩ "msg" (nodeB64Decode "BQY")) :=
  c3_pss_verify_digest_salt tP "PS384" (.str "pub") "msg" "BQY" (by decide) rfl

/-- C4 counterexample: the claim says the EdDSA-unsupported failure is an
UnsupportedAlgorithm error kind distinct from SignError and VerifyError.
On the code the thrown TokenError has code signError (and the boundary
catch wraps it in another signError for signing, a verifyError for
verification): no distinct error kind exists. -/
theorem c4_eddsa_unsupported_cex :
    createSignature noEdP "EdDSA" (.str "k") "m" =
      .error (.tokenWrap .signError "Cannot create the signature."
        (.token .signError
          "EdDSA algorithms are not supported by your Node.js version.")) ∧
    verifySignature noEdP "EdDSA" (.str "k") "m" "AA" =
      .error (.tokenWrap .verifyError "Cannot verify the signature."
        (.token .signError
          "EdDSA algorithms are not supported by your Node.js version.")) :=
  ⟨rfl, rfl⟩

/-- C4 amended: on a runtime without EdDSA support, every Ed sign or
verify call fails with a TokenError of code signError naming the missing
support, wrapped by the boundary catch (into signError when signing,
verifyError when verifying); the failure happens before any key
validation, so it occurs for every key value. -/
theorem c4_eddsa_unsupported (P : Prims) (alg : String) (key : JSVal)
    (msg s : String) (h : alg.take 2 = "Ed")
    (hs : P.edSignSupported = false) (hv : P.edVerifySupported = false) :
    createSignature P alg key msg =
      .error (.tokenWrap .signError "Cannot create the signature."
        (.token .signError
          "EdDSA algorithms are not supported by your Node.js version.")) ∧
    verifySignature P alg key msg s =
      .error (.tokenWrap .verifyError "Cannot verify the signature."
        (.token .signError
          "EdDSA algorithms are not supported by your Node.js version.")) :=
  ⟨ed_sign_unsupported P alg key msg h hs,
   ed_verify_unsupported P alg key msg s h hv⟩

/-- Witness for the amended C4, with an invalid (numeric) key: the
unsupported-algorithm failure wins over key validation. -/
theorem c4_eddsa_unsupported_witness :
    createSignature noEdP "EdDSA" (.num 3) "m" =
      .error (.tokenWrap .signError "Cannot create the signature."
        (.token .signError
          "EdDSA algorithms are not supported by your Node.js version.")) ∧
    verifySignature noEdP "EdDSA" (.num 3) "m" "AA" =
      .error (.tokenWrap .verifyError "Cannot verify the signature."
        (.token .signError
          "EdDSA algorithms are not supported by your Node.js version.")) :=
  c4_eddsa_unsupported noEdP "EdDSA" (.num 3) "m" "AA" (by decide) rfl rfl

/-- C7 counterexample: the claim says EdDSA verification validates key
presence before calling the native verifier. With the key undefined (not
present) no validation error occurs: the native verifier is invoked with
the undefined key (a probe accepting exactly that key returns true). -/
theorem c7_ed_no_validation_cex :
    verifySignature edProbe "EdDSA" .undefined "msg" "AA" = .ok true :=
  rfl

/-- C7 amended: the EdDSA verification path performs no key validation at
all; it invokes the native one-shot verifier on the raw message, the key
exactly as supplied, and the decoded signature, and returns that boolean
directly. -/
theorem c7_ed_verify_direct (P : Prims) (alg : String) (key : JSVal)
    (msg s : String) (h : alg.take 2 = "Ed") (hsup : P.edVerifySupported = true) :
    verifySignature P alg key msg s =
      .ok (P.edVerify msg key (nodeB64Decode s)) :=
  ed_verify_eq P alg key msg s h hsup

/-- Witness for the amended C7 with a null key. -/
theorem c7_ed_verify_direct_witness :
    verifySignature tP "EdDSA" .null "msg" "BQ" =
      .ok (tP.edVerify "msg" .null (nodeB64Decode "BQ")) :=
  c7_ed_verify_direct tP "EdDSA" .null "msg" "BQ" (by decide) rfl

/-- C2 counterexample: the claim says a shape-invalid key makes the
operation fail with InvalidKey raised directly, not wrapped into
SignError. On the code, signing RS256 with a structured key missing the
key-data field fails with a signError TokenError that carries the
field-naming InvalidKey only as its originalError. -/
theorem c2_invalid_key_wrapped_cex :
    createSignature tP "RS256" (.obj .undefined .undefined) "msg" =
      .error (.tokenWrap .signError "Cannot create the signature."
        (.token .invalidKey (privKeyKeyPropMsg "RS256"))) ∧
    createSignature tP "RS256" (.obj .undefined .undefined) "msg" ≠
      .error (.token .invalidKey (privKeyKeyPropMsg "RS256")) := by
  refine ⟨rfl, fun hcontra => ?_⟩
  rw [show createSignature tP "RS256" (.obj .undefined .undefined) "msg" =
      .error (.tokenWrap .signError "Cannot create the signature."
        (.token .invalidKey (privKeyKeyPropMsg "RS256"))) from rfl] at hcontra
  injection hcontra with hthr
  exact Thrown.noConfusion hthr

/-- C2 amended: a sign or verify call on the RSA families with a
structured key whose key property is neither string nor buffer fails with
the field-naming InvalidKey error, which the operation's catch-all then
wraps into a signError (signing) or verifyError (verification) TokenError
as the original error; no cryptographic primitive is invoked (the outcome
is the same for every primitive set). -/
theorem c2_invalid_key_wrapped (alg : String) (kf pf : JSVal) (msg sig : String)
    (h1 : alg.take 2 ≠ "HS") (h2 : alg.take 2 ≠ "Ed")
    (hbad : strOrBuf kf = false) :
    (∀ P : Prims, createSignature P alg (.obj kf pf) msg =
      .error (.tokenWrap .signError "Cannot create the signature."
        (.token .invalidKey (privKeyKeyPropMsg alg)))) ∧
    (∀ P : Prims, verifySignature P alg (.obj kf pf) msg sig =
      .error (.tokenWrap .verifyError "Cannot verify the signature."
        (.token .invalidKey (pubKeyMsg alg)))) := by
  have hobj : strOrBuf (.obj kf pf) = false := rfl
  have hv := validatePrivateKey_badKeyProp alg kf pf hbad
  constructor
  · intro P
    unfold createSignature createSignatureInner
    simp [beq_iff_eq, h1, h2, hv]
  · intro P
    unfold verifySignature verifySignatureInner validateSecretOrPublicKey
    simp [beq_iff_eq, h1, h2, hobj]

/-- Witness for the amended C2 on ES512 with a boolean key property. -/
theorem c2_invalid_key_wrapped_witness :
    createSignature tP "ES512" (.obj (.boolean true) .undefined) "m" =
      .error (.tokenWrap .signError "Cannot create the signature."
        (.token .invalidKey (privKeyKeyPropMsg "ES512"))) ∧
    verifySignature tP "ES512" (.obj (.boolean true) .undefined) "m" "AA" =
      .error (.tokenWrap .verifyError "Cannot verify the signature."
        (.token .invalidKey (pubKeyMsg "ES512"))) :=
  ⟨(c2_invalid_key_wrapped "ES512" (.boolean true) .undefined "m" "AA"
      (by decide) (by decide) rfl).1 tP,
   (c2_invalid_key_wrapped "ES512" (.boolean true) .undefined "m" "AA"
      (by decide) (by decide) rfl).2 tP⟩

/-- C6 counterexample: the claim says a malformed base64 wire signature
makes decoding fail with a DecodeError. On the code the decoder is
lenient: the malformed string of exclamation marks decodes to the empty
byte list without any error, and HS256 verification simply returns false
(the length-mismatch exception of the comparator is swallowed). -/
theorem c6_no_decode_error_cex :
    nodeB64Decode "!!!" = [] ∧
    verifySignature tP "HS256" (.str "secret") "msg" "!!!" = .ok false :=
  ⟨rfl, rfl⟩

/-- C6 amended: decoding of the wire-form signature is lenient and never
fails - characters outside the base64 alphabets are ignored and no
DecodeError exists in this core; for the HMAC family verification then
returns exactly whether the recomputed digest equals the decoded bytes,
so any corruption of the signature (well-formed or not) yields false and
never a throw. -/
theorem c6_lenient_decode (P : Prims) (alg : String) (key : JSVal)
    (msg : String) (h : alg.take 2 = "HS") (hk : strOrBuf key = true) :
    ∀ s : String, verifySignature P alg key msg s =
      .ok (P.hmac ("SHA" ++ alg.drop 2) key msg == nodeB64Decode s) :=
  fun s => hs_verify_eq P alg key msg s h hk

/-- Witness for the amended C6 on a malformed-length signature. -/
theorem c6_lenient_decode_witness :
    verifySignature tP "HS512" (.str "secret") "msg" "A" =
      .ok (tP.hmac ("SHA" ++ "HS512".drop 2) (.str "secret") "msg" ==
        nodeB64Decode "A") :=
  c6_lenient_decode tP "HS512" (.str "secret") "msg" (by decide) rfl "A"

/-- C5: With a valid key, a signature that decodes but does not match the
message makes verifySignature return the boolean false and never throw:
for HMAC a comparator exception (length mismatch) is swallowed into
false, for the other families the native verifier's false is returned. -/
theorem c5_mismatch_returns_false (P : Prims) (alg : String) (vkey : JSVal)
    (msg s : String) (d : List Nat)
    (hk : strOrBuf vkey = true)
    (hev : P.edVerifySupported = true)
    (hhm : P.hmac ("SHA" ++ alg.drop 2) vkey msg ≠ nodeB64Decode s)
    (hed : P.edVerify msg vkey (nodeB64Decode s) = false)
    (hjose : P.joseToDer (nodeB64Decode s) alg = .ok d)
    (hrv : ∀ name opts, P.rsaVerify name opts msg (nodeB64Decode s) = false)
    (hrd : ∀ name opts, P.rsaVerify name opts msg d = false) :
    verifySignature P alg vkey msg s = .ok false := by
  by_cases h1 : alg.take 2 = "HS"
  · rw [hs_verify_eq P alg vkey msg s h1 hk]
    rw [beq_eq_false_iff_ne.mpr hhm]
  · by_cases h2 : alg.take 2 = "Ed"
    · rw [ed_verify_eq P alg vkey msg s h2 hev, hed]
    · by_cases h3 : alg.take 2 = "PS"
      · rw [ps_verify_eq P alg vkey msg s h3 hk, hrv]
      · by_cases h4 : alg.take 2 = "ES"
        · rw [es_verify_eq P alg vkey msg s d h4 hk hjose, hrd]
        · rw [rs_verify_eq P alg vkey msg s h1 h2 h3 h4 hk, hrv]

/-- Witness for C5: rejecting primitives, a valid secret, and a signature
whose decoded bytes differ from the digest. -/
theorem c5_mismatch_returns_false_witness :
    verifySignature rejP "HS256" (.str "k") "m" "" = .ok false :=
  c5_mismatch_returns_false rejP "HS256" (.str "k") "m" "" []
    rfl rfl (by decide) rfl rfl (fun _ _ => rfl) (fun _ _ => rfl)

set_option maxHeartbeats 1000000 in
/-- C1: for every algorithm identifier, a matching key pair (or shared
secret) given as string or buffer, and any message, verifying the very
signature the signer produced returns true, under the hypotheses that the
abstract native primitives accept their own output (and produce in-range
bytes). -/
theorem c1_sign_verify_roundtrip (P : Prims) (alg : String) (skey vkey : JSVal)
    (msg s : String) (j d : List Nat)
    (hks : strOrBuf skey = true)
    (hkv : strOrBuf vkey = true)
    (hhm : P.hmac ("SHA" ++ alg.drop 2) vkey msg =
      P.hmac ("SHA" ++ alg.drop 2) skey msg)
    (hhb : ∀ b ∈ P.hmac ("SHA" ++ alg.drop 2) skey msg, b < 256)
    (hes : P.edSignSupported = true)
    (hev : P.edVerifySupported = true)
    (heb : ∀ b ∈ P.edSign msg skey, b < 256)
    (hed : P.edVerify msg vkey (P.edSign msg skey) = true)
    (hrb : ∀ b ∈ P.rsaSign ("RSA-" ++ ("SHA" ++ alg.drop 2))
      ⟨skey, .undefined, .pkcs1, .maxSign⟩ msg, b < 256)
    (hpb : ∀ b ∈ P.rsaSign ("RSA-" ++ ("SHA" ++ alg.drop 2))
      ⟨skey, .undefined, .pss, .digest⟩ msg, b < 256)
    (hrs : P.rsaVerify ("RSA-" ++ ("SHA" ++ alg.drop 2)) ⟨vkey, .pkcs1, .auto⟩ msg
      (P.rsaSign ("RSA-" ++ ("SHA" ++ alg.drop 2))
        ⟨skey, .undefined, .pkcs1, .maxSign⟩ msg) = true)
    (hps : P.rsaVerify ("RSA-" ++ ("SHA" ++ alg.drop 2)) ⟨vkey, .pss, .digest⟩ msg
      (P.rsaSign ("RSA-" ++ ("SHA" ++ alg.drop 2))
        ⟨skey, .undefined, .pss, .digest⟩ msg) = true)
    (hder : P.derToJose (P.rsaSign ("RSA-" ++ ("SHA" ++ alg.drop 2))
      ⟨skey, .undefined, .pkcs1, .maxSign⟩ msg) alg = .ok j)
    (hjb : ∀ b ∈ j, b < 256)
    (hjose : P.joseToDer j alg = .ok d)
    (hesv : P.rsaVerify ("RSA-" ++ ("SHA" ++ alg.drop 2))
      ⟨vkey, .pkcs1, .auto⟩ msg d = true)
    (hsig : createSignature P alg skey msg = .ok s) :
    verifySignature P alg vkey msg s = .ok true := by
  by_cases h1 : alg.take 2 = "HS"
  · rw [hs_sign_eq P alg skey msg h1 hks] at hsig
    injection hsig with hs
    subst hs
    rw [hs_verify_eq P alg vkey msg _ h1 hkv, nodeB64Decode_toUrlSafe _ hhb, hhm,
      beq_self_eq_true]
  · by_cases h2 : alg.take 2 = "Ed"
    · rw [ed_sign_eq P alg skey msg h2 hes hks] at hsig
      injection hsig with hs
      subst hs
      rw [ed_verify_eq P alg vkey msg _ h2 hev, nodeB64Decode_toUrlSafe _ heb, hed]
    · by_cases h3 : alg.take 2 = "PS"
      · rw [ps_sign_eq P alg skey msg h3 hks] at hsig
        injection hsig with hs
        subst hs
        rw [ps_verify_eq P alg vkey msg _ h3 hkv, nodeB64Decode_toUrlSafe _ hpb, hps]
      · by_cases h4 : alg.take 2 = "ES"
        · rw [es_sign_eq P alg skey msg j h4 hks hder] at hsig
          injection hsig with hs
          subst hs
          rw [es_verify_eq P alg vkey msg _ d h4 hkv
            (by rw [nodeB64Decode_toUrlSafe _ hjb]; exact hjose), hesv]
        · rw [rs_sign_eq P alg skey msg h1 h2 h3 h4 hks] at hsig
          injection hsig with hs
          subst hs
          rw [rs_verify_eq P alg vkey msg _ h1 h2 h3 h4 hkv,
            nodeB64Decode_toUrlSafe _ hrb, hrs]

/-- Witness for C1 on HS256 with the concrete primitive set. -/
theorem c1_sign_verify_roundtrip_witness :
    verifySignature tP "HS256" (.str "k") "m" (toUrlSafe [1, 2, 3]) = .ok true :=
  c1_sign_verify_roundtrip tP "HS256" (.str "k") (.str "k") "m"
    (toUrlSafe [1, 2, 3]) [5, 6] [5, 6]
    rfl rfl rfl (by decide) rfl rfl (by decide) rfl (by decide) (by decide)
    rfl rfl rfl (by decide) rfl rfl rfl

end FastJwt
